import Mathlib

/- Shallow embedding of the wellness-record builder (src/App.js): field
   normalisation, identity coining, FHIR resource builders, section assembly
   and bundle composition, together with theorems settling the specification
   claims.  Fresh `uuidv4()` results are modelled by an identifier supply
   `sup : Nat -> String` indexed by call site; JavaScript strings are `String`,
   loosely typed JSON values are `JVal`, absent object fields are `Option`. -/

namespace Wellness

/-! ### JavaScript-like values and string helpers -/

/-- JSON-like values, for the loosely typed raw person records. -/
inductive JVal where
  | jnull
  | jbool (b : Bool)
  | jnum (n : Int)
  | jstr (s : String)
  | jarr (items : List JVal)
  | jobj (fields : List (String × JVal))

/-- JavaScript truthiness of a `JVal` (arrays and objects are always truthy). -/
def truthy : JVal → Bool
  | .jnull => false
  | .jbool b => b
  | .jnum n => decide (n ≠ 0)
  | .jstr s => decide (s ≠ "")
  | .jarr _ => true
  | .jobj _ => true

/-- Optional-chaining property access `v?.k` (absent / non-object gives none). -/
def jget : JVal → String → Option JVal
  | .jobj fields, k => (fields.find? (fun f => f.1 == k)).map (fun f => f.2)
  | _, _ => none

/-- ASCII lower-casing of one character, as `String.prototype.toLowerCase`
    behaves on the ASCII inputs in scope. -/
def lowerChar (c : Char) : Char :=
  if 'A' ≤ c ∧ c ≤ 'Z' then Char.ofNat (c.toNat + 32) else c

/-- `s.toLowerCase()` (ASCII). -/
def lowerStr (s : String) : String := String.mk (s.data.map lowerChar)

/-- Whitespace test for `String.prototype.trim`. -/
def wsChar (c : Char) : Bool :=
  decide (c = ' ') || decide (c = '\t') || decide (c = '\n') || decide (c = '\r')

/-- `s.trim()`. -/
def jsTrim (s : String) : String :=
  String.mk (((s.data.dropWhile wsChar).reverse.dropWhile wsChar).reverse)

mutual
/-- `String(v)` coercion (Array.prototype.toString joins with commas and
    renders null elements empty; plain objects render as "[object Object]"). -/
def jsString : JVal → String
  | .jnull => "null"
  | .jbool b => if b then "true" else "false"
  | .jnum n => toString n
  | .jstr s => s
  | .jarr items => String.intercalate "," (jsStringItems items)
  | .jobj _ => "[object Object]"

def jsStringItems : List JVal → List String
  | [] => []
  | .jnull :: rest => "" :: jsStringItems rest
  | v :: rest => jsString v :: jsStringItems rest
end

mutual
/-- `JSON.stringify(v)`: the deterministic string encoding used for
    alternate-address objects without an `address` property (escaping of
    special characters inside strings is not modelled; the records in scope
    contain none). -/
def jsonStringify : JVal → String
  | .jnull => "null"
  | .jbool b => if b then "true" else "false"
  | .jnum n => toString n
  | .jstr s => "\"" ++ s ++ "\""
  | .jarr items => "[" ++ String.intercalate "," (jsonStringifyItems items) ++ "]"
  | .jobj fields => "\x7b" ++ String.intercalate "," (jsonStringifyFields fields) ++ "\x7d"

def jsonStringifyItems : List JVal → List String
  | [] => []
  | v :: rest => jsonStringify v :: jsonStringifyItems rest

def jsonStringifyFields : List (String × JVal) → List String
  | [] => []
  | (k, v) :: rest => ("\"" ++ k ++ "\":" ++ jsonStringify v) :: jsonStringifyFields rest
end

/-- `Array.from(new Set(l))`: deduplication by exact equality keeping the
    first occurrence, in insertion order. -/
def dedupAux : List String → List String → List String
  | _, [] => []
  | seen, x :: xs =>
    if x ∈ seen then dedupAux seen xs else x :: dedupAux (x :: seen) xs

/-- Deduplicate a list of strings keeping first occurrences. -/
def dedupFirst (l : List String) : List String := dedupAux [] l

/-! ### isUuid (src/App.js line 38) -/

/-- One hexadecimal digit, either case (the regex has the `i` flag). -/
def hexChar (c : Char) : Bool :=
  decide (('0' ≤ c ∧ c ≤ '9') ∨ ('a' ≤ c ∧ c ≤ 'f') ∨ ('A' ≤ c ∧ c ≤ 'F'))

/-- Check of character `c` at position `i` of the uuid regex
    `^[0-9a-f]\x7b8\x7d-[0-9a-f]\x7b4\x7d-[1-5][0-9a-f]\x7b3\x7d-[89ab][0-9a-f]\x7b3\x7d-[0-9a-f]\x7b12\x7d$/i`. -/
def uuidCharOk (i : Nat) (c : Char) : Bool :=
  if i = 8 ∨ i = 13 ∨ i = 18 ∨ i = 23 then decide (c = '-')
  else if i = 14 then decide ('1' ≤ c ∧ c ≤ '5')
  else if i = 19 then
    decide (c = '8' ∨ c = '9' ∨ c = 'a' ∨ c = 'b' ∨ c = 'A' ∨ c = 'B')
  else hexChar c

/-- `isUuid` (src/App.js line 38): the seed matches the version-1-to-5,
    variant-[89ab], case-insensitive uuid regex. -/
def isUuid (s : String) : Bool :=
  s.data.length == 36 && s.data.enum.all (fun p => uuidCharOk p.1 p.2)

/-! ### ddmmyyyyToISO (src/App.js lines 40-51) -/

/-- Shape test for the regex `^\d\x7b4\x7d-\d\x7b2\x7d-\d\x7b2\x7d$`. -/
def isoShape (l : List Char) : Bool :=
  l.length == 10 &&
    l.enum.all (fun p => if p.1 = 4 ∨ p.1 = 7 then decide (p.2 = '-') else p.2.isDigit)

/-- `String.prototype.split` on a single-character separator. -/
def splitOnChar (sep : Char) : List Char → List (List Char)
  | [] => [[]]
  | c :: cs =>
    let r := splitOnChar sep cs
    if c = sep then [] :: r
    else
      match r with
      | [] => [[c]]
      | h :: t => (c :: h) :: t

/-- `String.prototype.padStart(n, c)` on character lists. -/
def padL (n : Nat) (c : Char) (l : List Char) : List Char :=
  List.replicate (n - l.length) c ++ l

/-- Reassembly `yyyy-mm-dd` with padding, guarded by the source's
    `yyyy && yyyy.length === 4` test. -/
def dateFromParts (dd mm yyyy : List Char) : String :=
  if yyyy ≠ [] ∧ yyyy.length = 4 then
    String.mk (padL 4 '0' yyyy ++ '-' :: (padL 2 '0' mm ++ '-' :: padL 2 '0' dd))
  else ""

/-- Split the trimmed date on the chosen separator and reassemble when it has
    exactly three parts. -/
def splitDate (sep : Char) (l : List Char) : String :=
  match splitOnChar sep l with
  | [dd, mm, yyyy] => dateFromParts dd mm yyyy
  | _ => ""

/-- `ddmmyyyyToISO` (src/App.js lines 40-51). -/
def ddmmyyyyToISO (v : String) : String :=
  if v = "" then ""
  else
    let s := jsTrim v
    if isoShape s.data then s
    else if s.data.contains '-' then splitDate '-' s.data
    else if s.data.contains '/' then splitDate '/' s.data
    else ""

/-- Modelled from the spec wording of claim C7: a string of shape
    `DD-MM-YYYY` or `DD/MM/YYYY` with a single consistent separator
    (two digits, two digits, four digits). -/
def ddmmClaimShape (v : String) : Bool :=
  match v.data with
  | [d1, d2, s1, m1, m2, s2, y1, y2, y3, y4] =>
    (decide (s1 = '-') || decide (s1 = '/')) && decide (s2 = s1) &&
      [d1, d2, m1, m2, y1, y2, y3, y4].all Char.isDigit
  | _ => false

/-- The reassembly rule of the amended claim C7: when the split yields
    exactly three parts and the third has length 4, return
    third-second-first with zero padding and no digit validation, else the
    empty string. -/
def splitRule (sep : Char) (l : List Char) : String :=
  let parts := splitOnChar sep l
  if parts.length = 3 ∧ (parts.getD 2 []).length = 4 then
    String.mk (padL 4 '0' (parts.getD 2 []) ++ '-' ::
      (padL 2 '0' (parts.getD 1 []) ++ '-' :: padL 2 '0' (parts.getD 0 [])))
  else ""

/-- The amended description of `ddmmyyyyToISO` (claim C7): already-ISO dates
    are returned unchanged; otherwise the trimmed input is split on `-` if
    present, else `/`, and reassembled by `splitRule`; every other input
    yields the empty string. -/
def ddmmyyyyToISOAmended (v : String) : String :=
  if v = "" then ""
  else
    let s := jsTrim v
    if isoShape s.data then s
    else if s.data.contains '-' then splitRule '-' s.data
    else if s.data.contains '/' then splitRule '/' s.data
    else ""

/-! ### extractAbhaAddresses (src/App.js lines 53-73) -/

/-- The `.map` body of `extractAbhaAddresses`: falsy items map to null (none);
    strings map to themselves; objects map to their `address` property's
    string form when truthy, else to their JSON encoding; anything else maps
    to null. -/
def abhaItem (it : JVal) : Option String :=
  if truthy it = false then none
  else
    match it with
    | .jstr s => some s
    | .jobj fields =>
      match jget (.jobj fields) "address" with
      | some a => if truthy a then some (jsString a) else some (jsonStringify (.jobj fields))
      | none => some (jsonStringify (.jobj fields))
    | .jarr items => some (jsonStringify (.jarr items))
    | _ => none

/-- `extractAbhaAddresses` (src/App.js lines 53-73): map the nested list
    through `abhaItem`, drop falsy results (`.filter(Boolean)` removes the
    nulls and empty strings), deduplicate; when the nested field is not
    list-shaped, fall back to the legacy `abha_ref` field. -/
def extractAbhaAddresses (p : JVal) : List String :=
  match (jget p "additional_attributes").bind (fun a => jget a "abha_addresses") with
  | some (.jarr raw) =>
    dedupFirst (((raw.map abhaItem).filterMap id).filter (fun s => decide (s ≠ "")))
  | _ =>
    match jget p "abha_ref" with
    | some r => if truthy r then [jsString r] else []
    | none => []

/-- Modelled from the spec wording of claim C8: string items taken as-is,
    objects' `address` property when present, otherwise the deterministic
    string encoding of the whole object, deduplicated, first-occurrence
    order; legacy single-address fallback when the nested field is absent or
    not list-shaped. -/
def abhaItemClaim (it : JVal) : Option String :=
  match it with
  | .jstr s => some s
  | .jobj fields =>
    match jget (.jobj fields) "address" with
    | some a => some (jsString a)
    | none => some (jsonStringify (.jobj fields))
  | .jarr items => some (jsonStringify (.jarr items))
  | _ => none

/-- Modelled from the spec wording of claim C8 (whole function). -/
def extractAbhaAddressesClaim (p : JVal) : List String :=
  match (jget p "additional_attributes").bind (fun a => jget a "abha_addresses") with
  | some (.jarr raw) => dedupFirst (raw.filterMap abhaItemClaim)
  | _ =>
    match jget p "abha_ref" with
    | some r => [jsString r]
    | none => []

/-- Keep a string only when non-empty. -/
def dropEmptyStr (s : String) : Option String := if s = "" then none else some s

/-- The amended per-item rule of claim C8: falsy items and items that are
    neither strings nor objects are dropped; non-empty strings are taken
    as-is; objects (arrays included) yield their `address` property's string
    form when that property is truthy and otherwise the deterministic string
    encoding of the whole object, the result being dropped when empty. -/
def abhaItemAmended (it : JVal) : Option String :=
  if truthy it = false then none
  else
    match it with
    | .jstr s => if s = "" then none else some s
    | .jobj fields =>
      dropEmptyStr (match jget (.jobj fields) "address" with
        | some a => if truthy a then jsString a else jsonStringify (.jobj fields)
        | none => jsonStringify (.jobj fields))
    | .jarr items => dropEmptyStr (jsonStringify (.jarr items))
    | _ => none

/-- The amended description of `extractAbhaAddresses` (claim C8): items
    mapped by `abhaItemAmended`, deduplicated in first-occurrence order;
    when the nested field is absent or not list-shaped, the legacy field's
    string form when truthy, else the empty list. -/
def extractAbhaAddressesAmended (p : JVal) : List String :=
  match (jget p "additional_attributes").bind (fun a => jget a "abha_addresses") with
  | some (.jarr raw) => dedupFirst (raw.filterMap abhaItemAmended)
  | _ =>
    match jget p "abha_ref" with
    | some r => if truthy r then [jsString r] else []
    | none => []

/-! ### FHIR data model (the resource shapes built by src/App.js) -/

/-- Profile and terminology literals (src/App.js lines 21-28). -/
def NDHM_PATIENT_PROFILE : String :=
  "https://nrces.in/ndhm/fhir/r4/StructureDefinition/Patient"

def NDHM_PRACTITIONER_PROFILE : String :=
  "https://nrces.in/ndhm/fhir/r4/StructureDefinition/Practitioner"

def NDHM_WELLNESS_COMPOSITION : String :=
  "https://nrces.in/ndhm/fhir/r4/StructureDefinition/WellnessRecord"

def OBS_PHYSICAL_PROFILE : String :=
  "https://nrces.in/ndhm/fhir/r4/StructureDefinition/ObservationPhysicalActivity"

def OBS_GENERAL_PROFILE : String :=
  "https://nrces.in/ndhm/fhir/r4/StructureDefinition/ObservationGeneralAssessment"

def OBS_LIFESTYLE_PROFILE : String :=
  "https://nrces.in/ndhm/fhir/r4/StructureDefinition/ObservationLifestyle"

def V2_0203 : String := "http://terminology.hl7.org/CodeSystem/v2-0203"

/-- One coding entry `(system, code, display?)`. -/
structure Coding where
  system : String
  code : String
  display : Option String
deriving DecidableEq

/-- A codeable concept: coding list plus optional text. -/
structure CodeableConcept where
  coding : List Coding
  text : Option String
deriving DecidableEq

/-- The `type` object of an identifier entry. -/
structure IdType where
  coding : List Coding
  text : String
deriving DecidableEq

/-- One identifier entry of a Patient / Practitioner resource. -/
structure Identifier where
  system : String
  value : String
  idType : IdType
deriving DecidableEq

/-- A narrative: `\x7b status, div \x7d`. -/
structure Narrative where
  status : String
  div : String
deriving DecidableEq

/-- A cross-reference `\x7b reference, display? \x7d`. -/
structure Reference where
  reference : String
  display : Option String
deriving DecidableEq

/-- One telecom entry. -/
structure Telecom where
  system : String
  value : String
deriving DecidableEq

/-- The Patient resource built by `buildFhirPatient`. -/
structure PatientR where
  id : String
  metaProfile : List String
  text : Narrative
  identifier : List Identifier
  nameText : String
  gender : Option String
  birthDate : Option String
  telecom : List Telecom
  address : List String
deriving DecidableEq

/-- The Practitioner resource built by `buildPractitioner`. -/
structure PractitionerR where
  id : String
  metaProfile : List String
  text : Narrative
  identifier : List Identifier
  nameText : String
deriving DecidableEq

/-- The result of the JavaScript `Number(quantity)` coercion, kept abstract:
    floating-point semantics are out of scope and no claim depends on the
    numeric interpretation, only on which string was converted. -/
inductive JsNumber where
  | ofString (s : String)
deriving DecidableEq

/-- A quantity value `\x7b value, unit, system, code \x7d`. -/
structure Quantity where
  value : JsNumber
  unit : String
  system : String
  code : String
deriving DecidableEq

/-- One component of an observation. -/
structure ObsComponent where
  code : CodeableConcept
  valueCodeableConcept : CodeableConcept
deriving DecidableEq

/-- An Observation resource; the three value[x] variants the source uses are
    optional fields, absent ones modelling absent JSON properties. -/
structure ObservationR where
  id : String
  metaProfile : List String
  status : String
  code : CodeableConcept
  subject : Reference
  performer : List Reference
  effectiveDateTime : String
  valueString : Option String
  valueCodeableConcept : Option CodeableConcept
  valueQuantity : Option Quantity
  component : List ObsComponent
  text : Narrative
deriving DecidableEq

/-- One Composition section: `entry` and `text` are each present or absent. -/
structure Section where
  title : String
  entry : Option (List Reference)
  text : Option Narrative
deriving DecidableEq

/-- One attester entry of the Composition. -/
structure CompAttester where
  mode : String
  party : Reference
deriving DecidableEq

/-- The Composition (document header) resource. -/
structure CompositionR where
  id : String
  metaProfile : List String
  status : String
  typeCC : CodeableConcept
  subject : Reference
  date : String
  author : List Reference
  attester : List CompAttester
  title : String
  sectionList : List Section
  text : Narrative
deriving DecidableEq

/-- Any resource instance placed in the bundle. -/
inductive Resource where
  | composition (c : CompositionR)
  | patient (p : PatientR)
  | practitioner (pr : PractitionerR)
  | observation (o : ObservationR)
deriving DecidableEq

/-- One bundle entry `\x7b fullUrl, resource \x7d`. -/
structure BundleEntry where
  fullUrl : String
  resource : Resource
deriving DecidableEq

/-- The bundle-level `identifier` object. -/
structure BundleIdent where
  system : String
  value : String
deriving DecidableEq

/-- The output Bundle. -/
structure Bundle where
  btype : String
  id : String
  identifier : BundleIdent
  timestamp : String
  entry : List BundleEntry
deriving DecidableEq

/-! ### Form state and generation inputs -/

/-- The per-patient form state produced by `mapApiToForm` and edited in the
    form; absent `selectedAbhaAddress` is the empty string. -/
structure Form where
  resourceId : String
  displayName : String
  gender : String
  birthDate : String
  mobile : String
  address : String
  abhaRef : String
  abhaAddresses : List String
  selectedAbhaAddress : String
  mrn : String
deriving DecidableEq

/-- The practitioner (attester) state. -/
structure Pract where
  loginId : String
  name : String
  license : String
deriving DecidableEq

/-- A lifestyle row's value: the form stores a boolean or a string; null and
    undefined are included because the generation loop tests for them. -/
inductive LValue where
  | bool (b : Bool)
  | str (s : String)
  | null
  | undef
deriving DecidableEq

/-- One lifestyle input row. -/
structure LifestyleRow where
  label : String
  value : LValue
deriving DecidableEq

/-- The vitals form state (all text inputs, so plain strings). -/
structure VitalsState where
  hr : String
  systolic : String
  diastolic : String
  temp : String
  spo2 : String
deriving DecidableEq

/-- The body-measurement form state. -/
structure BodyState where
  height : String
  weight : String
  bmi : String
deriving DecidableEq

/-- Everything `generateBundle` reads from component state. -/
structure GenInputs where
  form : Option Form
  pract : Pract
  physicalText : String
  generalNotes : String
  generalPain : Bool
  lifestyle : List LifestyleRow
  vitals : VitalsState
  body : BodyState

/-! ### mapApiToForm (src/App.js lines 75-89) -/

/-- `apiP?.k || ""` for the string-valued form fields (the string coercion of
    a truthy non-string value is applied here rather than at later use
    sites, which is equivalent for every field of the form). -/
def jstrOr (p : JVal) (k : String) : String :=
  match jget p k with
  | some v => if truthy v then jsString v else ""
  | none => ""

/-- `mapApiToForm` (src/App.js lines 75-89). -/
def mapApiToForm (apiP : JVal) : Form :=
  { resourceId :=
      (match jget apiP "user_ref_id" with
       | some (.jstr s) => if isUuid s then lowerStr s else ""
       | _ => "")
  , displayName := jstrOr apiP "name"
  , gender := lowerStr (jstrOr apiP "gender")
  , birthDate := ddmmyyyyToISO (jstrOr apiP "dob")
  , mobile := jstrOr apiP "mobile"
  , address := jstrOr apiP "address"
  , abhaRef := jstrOr apiP "abha_ref"
  , abhaAddresses := extractAbhaAddresses apiP
  , selectedAbhaAddress := ""
  , mrn :=
      (match jget apiP "user_id" with
       | some v => if truthy v then jsString v else ""
       | none => "") }

/-! ### Resource builders (src/App.js lines 92-278) -/

/-- The id chosen for the person resource (src/App.js line 93): the
    lower-cased seed when truthy and uuid-shaped, else the fresh coin. -/
def reuseOrCoin (seed fresh : String) : String :=
  if seed ≠ "" ∧ isUuid seed then lowerStr seed else fresh

/-- `urn:uuid:` cross-reference to a coined identity. -/
def urn (s : String) : String := "urn:uuid:" ++ s

/-- Narrative div wrapping a paragraph. -/
def xhtmlP (s : String) : String :=
  "<div xmlns=\"http://www.w3.org/1999/xhtml\"><p>" ++ s ++ "</p></div>"

/-- Narrative div wrapping plain text. -/
def xhtmlDiv (s : String) : String :=
  "<div xmlns=\"http://www.w3.org/1999/xhtml\">" ++ s ++ "</div>"

/-- A generated narrative. -/
def genNarr (s : String) : Narrative := { status := "generated", div := xhtmlDiv s }

/-- The identifier list of the person resource (src/App.js lines 94-138):
    one entry per truthy source field, and the synthetic generated-id entry
    when all three are absent. -/
def patientIdentifiers (f : Form) (pid : String) : List Identifier :=
  (if f.abhaRef ≠ "" then
    [{ system := "https://healthid.abdm.gov.in", value := f.abhaRef
     , idType := { coding := [{ system := V2_0203, code := "PI"
                              , display := some "Patient internal identifier" }]
                 , text := "ABHA Number" } }]
   else []) ++
  (if f.selectedAbhaAddress ≠ "" then
    [{ system := "https://healthid.abdm.gov.in/address", value := f.selectedAbhaAddress
     , idType := { coding := [{ system := V2_0203, code := "PN"
                              , display := some "Person number" }]
                 , text := "ABHA Address" } }]
   else []) ++
  (if f.mrn ≠ "" then
    [{ system := "http://hospital.example/mrn", value := f.mrn
     , idType := { coding := [{ system := V2_0203, code := "MR"
                              , display := some "Medical record number" }]
                 , text := "MRN" } }]
   else []) ++
  (if f.abhaRef = "" ∧ f.selectedAbhaAddress = "" ∧ f.mrn = "" then
    [{ system := "urn:uuid", value := pid
     , idType := { coding := [{ system := V2_0203, code := "PI"
                              , display := some "Patient internal identifier" }]
                 , text := "generated-id" } }]
   else [])

/-- `buildFhirPatient` (src/App.js lines 92-154); `fresh` is the `uuidv4()`
    coined when the form's resource id is not reusable. -/
def buildFhirPatient (f : Form) (fresh : String) : PatientR :=
  let pid := reuseOrCoin f.resourceId fresh
  { id := pid
  , metaProfile := [NDHM_PATIENT_PROFILE]
  , text := { status := "generated", div := xhtmlP f.displayName }
  , identifier := patientIdentifiers f pid
  , nameText := f.displayName
  , gender := if f.gender = "" then none else some f.gender
  , birthDate := if f.birthDate = "" then none else some f.birthDate
  , telecom := if f.mobile = "" then [] else [{ system := "phone", value := f.mobile }]
  , address := if f.address = "" then [] else [f.address] }

/-- `buildPractitioner` (src/App.js lines 157-178). -/
def buildPractitioner (pr : Pract) (fresh : String) : PractitionerR :=
  { id := fresh
  , metaProfile := [NDHM_PRACTITIONER_PROFILE]
  , text := { status := "generated", div := xhtmlP pr.name }
  , identifier :=
      [ { system := "https://ndhm.in/practitioner/license", value := pr.license
        , idType := { coding := [{ system := V2_0203, code := "MD"
                                 , display := some "Medical License number" }]
                    , text := "Medical License number" } }
      , { system := "https://your.system/login-id", value := pr.loginId
        , idType := { coding := [{ system := V2_0203, code := "PN"
                                 , display := some "Person number" }]
                    , text := "Login id" } } ]
  , nameText := pr.name }

/-- `buildPhysicalActivityObs` (src/App.js lines 187-212). -/
def buildPhysicalActivityObs (pid prid txt fresh now : String) : ObservationR :=
  { id := fresh
  , metaProfile := [OBS_PHYSICAL_PROFILE]
  , status := "final"
  , code := { coding := [{ system := "http://loinc.org", code := "68516-4"
                         , display := some "On those days that you engage in moderate to strenuous exercise, how many minutes, on average, do you exercise" }]
            , text := some "Physical activity" }
  , subject := { reference := urn pid, display := none }
  , performer := [{ reference := urn prid, display := none }]
  , effectiveDateTime := now
  , valueString := some (if txt = "" then "Not provided" else txt)
  , valueCodeableConcept := none
  , valueQuantity := none
  , component := []
  , text := { status := "generated"
            , div := xhtmlP (if txt = "" then "Not provided" else txt) } }

/-- `buildGeneralAssessmentObs` (src/App.js lines 214-239). -/
def buildGeneralAssessmentObs (pid prid notes : String) (pain : Bool)
    (fresh now : String) : ObservationR :=
  let textVal := if notes = "" then "Not provided" else notes
  { id := fresh
  , metaProfile := [OBS_GENERAL_PROFILE]
  , status := "final"
  , code := { coding := [{ system := "http://loinc.org", code := "8693-4"
                         , display := some "Mental status" }]
            , text := some "General assessment" }
  , subject := { reference := urn pid, display := none }
  , performer := [{ reference := urn prid, display := none }]
  , effectiveDateTime := now
  , valueString := none
  , valueCodeableConcept := some { coding := [], text := some textVal }
  , valueQuantity := none
  , component :=
      [ { code := { coding := [], text := some "Any current pain?" }
        , valueCodeableConcept :=
            { coding := [], text := some (if pain then "Yes" else "No") } } ]
  , text := { status := "generated", div := xhtmlP textVal } }

/-- Rendering of a lifestyle value (src/App.js line 243):
    booleans as Yes/No, otherwise `String(value || "Not provided")`. -/
def lvRender : LValue → String
  | .bool b => if b then "Yes" else "No"
  | .str s => if s = "" then "Not provided" else s
  | .null => "Not provided"
  | .undef => "Not provided"

/-- `buildLifestyleObs` (src/App.js lines 241-260). -/
def buildLifestyleObs (pid prid label : String) (value : LValue)
    (fresh now : String) : ObservationR :=
  let v := lvRender value
  { id := fresh
  , metaProfile := [OBS_LIFESTYLE_PROFILE]
  , status := "final"
  , code := { coding := [{ system := "http://snomed.info/sct", code := "229819007"
                         , display := some "Tobacco use and exposure" }]
            , text := some (if label = "" then "Lifestyle" else label) }
  , subject := { reference := urn pid, display := none }
  , performer := [{ reference := urn prid, display := none }]
  , effectiveDateTime := now
  , valueString := none
  , valueCodeableConcept := some { coding := [], text := some v }
  , valueQuantity := none
  , component := []
  , text := { status := "generated"
            , div := "<div xmlns=\"http://www.w3.org/1999/xhtml\"><p>" ++ label
                ++ ": " ++ v ++ "</p></div>" } }

/-- `buildVitalObservation` (src/App.js lines 263-278): none when the
    quantity is absent/empty; the form inputs are strings, so the JS test
    `quantity === "" || quantity === undefined || quantity === null`
    is `quantity = ""` here. -/
def buildVitalObservation (pid prid codeText quantity unit loincCode fresh now :
    String) : Option ObservationR :=
  if quantity = "" then none
  else some
    { id := fresh
    , metaProfile := []
    , status := "final"
    , code :=
        if loincCode ≠ "" then
          { coding := [{ system := "http://loinc.org", code := loincCode
                       , display := some codeText }], text := some codeText }
        else { coding := [], text := some codeText }
    , subject := { reference := urn pid, display := none }
    , performer := [{ reference := urn prid, display := none }]
    , effectiveDateTime := now
    , valueString := none
    , valueCodeableConcept := none
    , valueQuantity := some { value := .ofString quantity, unit := unit
                            , system := "http://unitsofmeasure.org", code := unit }
    , component := []
    , text := { status := "generated"
              , div := "<div xmlns=\"http://www.w3.org/1999/xhtml\"><p>" ++ codeText
                  ++ ": " ++ quantity ++ " " ++ unit ++ "</p></div>" } }

/-! ### generateBundle (src/App.js lines 352-462) -/

/-- `s || "Not provided"` at the physical-activity / general-assessment call
    sites. -/
def orNotProvided (s : String) : String := if s = "" then "Not provided" else s

/-- One optional vital pushed onto the observation list.  In the source,
    Heart rate / Systolic / Diastolic call the builder unconditionally and
    push only non-null results, while the remaining five are guarded by the
    truthiness of the value; both shapes keep the observation exactly when
    the value is non-empty, which is this `Option.toList`. -/
def vitalChunk (pid prid ct q u code fid now : String) : List ObservationR :=
  (buildVitalObservation pid prid ct q u code fid now).toList

/-- Empty test of the lifestyle skip condition (src/App.js line 390):
    `li.value === "" || li.value === null || li.value === undefined`. -/
def lvEmpty : LValue → Bool
  | .str s => decide (s = "")
  | .null => true
  | .undef => true
  | .bool _ => false

/-- One iteration of the lifestyle loop (src/App.js lines 389-392): skip the
    row when the label is empty and the value is empty, otherwise build one
    lifestyle observation with the label defaulted. -/
def lifestyleRowObs (pid prid fid now : String) (r : LifestyleRow) :
    Option ObservationR :=
  if r.label = "" ∧ lvEmpty r.value then none
  else some (buildLifestyleObs pid prid
    (if r.label = "" then "Lifestyle" else r.label) r.value fid now)

/-- The lifestyle loop; the row at position `i` coins supply slot `15 + i`. -/
def lifestyleObservations (pid prid : String) (sup : Nat → String) (now : String)
    (rows : List LifestyleRow) : List ObservationR :=
  rows.enum.filterMap (fun p => lifestyleRowObs pid prid (sup (15 + p.1)) now p.2)

/-- The observation list of one run (src/App.js lines 363-392), in generation
    order: eight optional vitals, the physical-activity observation, the
    general-assessment observation, then the kept lifestyle rows. -/
def buildObservations (pid prid : String) (sup : Nat → String) (now : String)
    (ins : GenInputs) : List ObservationR :=
  vitalChunk pid prid "Heart rate" ins.vitals.hr "beats/min" "8867-4" (sup 5) now ++
  vitalChunk pid prid "Systolic blood pressure" ins.vitals.systolic "mmHg" "8480-6" (sup 6) now ++
  vitalChunk pid prid "Diastolic blood pressure" ins.vitals.diastolic "mmHg" "8462-4" (sup 7) now ++
  vitalChunk pid prid "Body temperature" ins.vitals.temp "Cel" "8310-5" (sup 8) now ++
  vitalChunk pid prid "SpO2" ins.vitals.spo2 "%" "59408-5" (sup 9) now ++
  vitalChunk pid prid "Height" ins.body.height "cm" "8302-2" (sup 10) now ++
  vitalChunk pid prid "Weight" ins.body.weight "kg" "29463-7" (sup 11) now ++
  vitalChunk pid prid "BMI" ins.body.bmi "kg/m2" "39156-5" (sup 12) now ++
  [buildPhysicalActivityObs pid prid (orNotProvided ins.physicalText) (sup 13) now] ++
  [buildGeneralAssessmentObs pid prid (orNotProvided ins.generalNotes) ins.generalPain (sup 14) now] ++
  lifestyleObservations pid prid sup now ins.lifestyle

/-- The composition sections (src/App.js lines 394-422).  `physId` / `genId`
    are the identities of the physical-activity and general-assessment
    observations; the source guards those two sections on the observation
    object being truthy, which always holds since the builders always return
    a resource, so only the entry-carrying branch is reachable. -/
def mkSections (observations : List ObservationR) (physId genId : String) :
    List Section :=
  (let vitalsEntries := (observations.filter (fun o => o.valueQuantity.isSome)).map
      (fun o => ({ reference := urn o.id, display := none } : Reference))
   if vitalsEntries = [] then
     [{ title := "Vitals", entry := none, text := some (genNarr "No vitals recorded") }]
   else
     [{ title := "Vitals", entry := some vitalsEntries, text := none }]) ++
  [{ title := "Physical Activity"
   , entry := some [{ reference := urn physId, display := none }]
   , text := some (genNarr "Physical activity") }] ++
  [{ title := "General Assessment"
   , entry := some [{ reference := urn genId, display := none }]
   , text := some (genNarr "General assessment") }] ++
  (let lifestyleEntries := (observations.filter
      (fun o => o.metaProfile.contains OBS_LIFESTYLE_PROFILE)).map
      (fun o => ({ reference := urn o.id, display := none } : Reference))
   if lifestyleEntries = [] then
     [{ title := "Lifestyle", entry := none
      , text := some (genNarr "No lifestyle observations recorded") }]
   else
     [{ title := "Lifestyle", entry := some lifestyleEntries
      , text := some (genNarr "Lifestyle") }])

/-- The `patientRes` of one run (src/App.js line 360).  Supply slots of the
    run: patient 0, practitioner 1, composition 2, bundle id 3, bundle
    identifier value 4, vitals 5-12, physical activity 13, general
    assessment 14, lifestyle row i at 15+i. -/
def corePatient (sup : Nat → String) (f : Form) : PatientR :=
  buildFhirPatient f (sup 0)

/-- The `practitionerRes` of one run (src/App.js line 361). -/
def corePract (sup : Nat → String) (ins : GenInputs) : PractitionerR :=
  buildPractitioner ins.pract (sup 1)

/-- The `observations` of one run (src/App.js lines 363-392). -/
def coreObservations (sup : Nat → String) (now : String) (f : Form)
    (ins : GenInputs) : List ObservationR :=
  buildObservations (corePatient sup f).id (corePract sup ins).id sup now ins

/-- The `sections` of one run (src/App.js lines 394-422); the physical
    activity and general assessment observations carry supply slots 13, 14. -/
def coreSections (sup : Nat → String) (now : String) (f : Form)
    (ins : GenInputs) : List Section :=
  mkSections (coreObservations sup now f ins) (sup 13) (sup 14)

/-- The `composition` of one run (src/App.js lines 424-437). -/
def coreComposition (sup : Nat → String) (now : String) (f : Form)
    (ins : GenInputs) : CompositionR :=
  { id := sup 2
  , metaProfile := [NDHM_WELLNESS_COMPOSITION]
  , status := "final"
  , typeCC := { coding := [{ system := "http://loinc.org", code := "11502-2"
                           , display := none }]
              , text := some "Wellness Record" }
  , subject := { reference := urn (corePatient sup f).id, display := some f.displayName }
  , date := now
  , author := [{ reference := urn (corePract sup ins).id, display := some ins.pract.name }]
  , attester := [{ mode := "official"
                 , party := { reference := urn (corePract sup ins).id, display := none } }]
  , title := "Wellness Record"
  , sectionList := coreSections sup now f ins
  , text := { status := "generated"
            , div := "<div xmlns=\"http://www.w3.org/1999/xhtml\"><h3>Wellness Record - "
                ++ f.displayName ++ "</h3></div>" } }

/-- The successful generation run (src/App.js lines 360-455): the bundle
    with the composition first, then the patient, the practitioner, and the
    observations in generation order. -/
def generateBundleCore (sup : Nat → String) (now : String) (f : Form)
    (ins : GenInputs) : Bundle :=
  { btype := "document"
  , id := sup 3
  , identifier := { system := "https://nrces.in/ids/bundles", value := sup 4 }
  , timestamp := now
  , entry :=
      { fullUrl := urn (sup 2), resource := .composition (coreComposition sup now f ins) } ::
      { fullUrl := urn (corePatient sup f).id, resource := .patient (corePatient sup f) } ::
      { fullUrl := urn (corePract sup ins).id, resource := .practitioner (corePract sup ins) } ::
      (coreObservations sup now f ins).map
        (fun o => { fullUrl := urn o.id, resource := .observation o }) }

/-- `generateBundle` (src/App.js lines 352-462): the three precondition
    checks refuse generation with a message (the Idle state, no bundle),
    otherwise the run produces the bundle. -/
def generateBundle (sup : Nat → String) (now : String) (ins : GenInputs) :
    Except String Bundle :=
  match ins.form with
  | none => .error "Please select a patient."
  | some f =>
    if f.selectedAbhaAddress = "" ∧ f.abhaRef = "" then
      .error "Please select ABHA address."
    else if ins.pract.name = "" ∨ ins.pract.license = "" then
      .error "Practitioner name and license required."
    else .ok (generateBundleCore sup now f ins)

/-! ### Cross-reference collection -/

/-- The coined identity of a resource. -/
def Resource.rid : Resource → String
  | .composition c => c.id
  | .patient p => p.id
  | .practitioner pr => pr.id
  | .observation o => o.id

/-- The cross-references of one section. -/
def sectionRefs (s : Section) : List String :=
  match s.entry with
  | some rs => rs.map (fun r => r.reference)
  | none => []

/-- The cross-references embedded in the composition. -/
def compRefs (c : CompositionR) : List String :=
  c.subject.reference ::
    (c.author.map (fun r => r.reference) ++
     c.attester.map (fun a => a.party.reference) ++
     (c.sectionList.map sectionRefs).flatten)

/-- The cross-references embedded in one resource. -/
def resourceRefs : Resource → List String
  | .composition c => compRefs c
  | .observation o => o.subject.reference :: o.performer.map (fun r => r.reference)
  | _ => []

/-- Every cross-reference embedded anywhere in the bundle. -/
def bundleRefs (b : Bundle) : List String :=
  (b.entry.map (fun e => resourceRefs e.resource)).flatten

/-- The coined identities of the bundle's resources, in entry order. -/
def bundleIds (b : Bundle) : List String :=
  b.entry.map (fun e => Resource.rid e.resource)

/-! ### Helper lemmas -/

/-- A uuid-shaped string is non-empty (the regex fixes the length at 36). -/
lemma isUuid_ne_empty {s : String} (h : isUuid s = true) : s ≠ "" := by
  intro he
  subst he
  exact absurd h (by decide)

/-! ### Claim C6: reuse-or-coin of the person identity -/

/-- Claim C6: reuse-or-coin returns the lower-cased seed unchanged exactly
    when the seed passes the syntactic uuid check (the source regex, which
    accepts the version-1-to-5, variant-[89ab] shapes, case-insensitively);
    for every other seed — including a syntactically invalid internal
    reference string such as "AB1234" — the coined fresh identity is used
    and the seed is not reused, so the person resource receives the fresh
    identity. -/
theorem reuseOrCoin_spec :
    (∀ seed fresh : String, fresh ≠ lowerStr seed →
      (reuseOrCoin seed fresh = lowerStr seed ↔ isUuid seed = true)) ∧
    (∀ seed fresh : String, isUuid seed = false → reuseOrCoin seed fresh = fresh) ∧
    (∀ (f : Form) (fresh : String), isUuid f.resourceId = false →
      (buildFhirPatient f fresh).id = fresh) ∧
    isUuid "AB1234" = false ∧
    isUuid "123e4567-e89b-42d3-a456-426614174000" = true ∧
    reuseOrCoin "123E4567-E89B-42D3-A456-426614174000" "f-id" =
      "123e4567-e89b-42d3-a456-426614174000" := by
  have hcoin : ∀ seed fresh : String, isUuid seed = false → reuseOrCoin seed fresh = fresh := by
    intro seed fresh h
    unfold reuseOrCoin
    rw [if_neg]
    intro hc
    rw [hc.2] at h
    exact Bool.noConfusion h
  refine ⟨?_, hcoin, ?_, by decide, by decide, by decide⟩
  · intro seed fresh hfr
    constructor
    · intro he
      cases hu : isUuid seed with
      | true => rfl
      | false =>
        rw [hcoin seed fresh hu] at he
        exact absurd he hfr
    · intro hu
      unfold reuseOrCoin
      rw [if_pos ⟨isUuid_ne_empty hu, hu⟩]
  · intro f fresh h
    show reuseOrCoin f.resourceId fresh = fresh
    exact hcoin f.resourceId fresh h

/-- Witness for C6 at concrete inputs: the invalid seed "AB1234" is not
    reused (the fresh identity is distinct from its lower-casing). -/
theorem reuseOrCoin_spec_witness :
    ("f-id" : String) ≠ lowerStr "AB1234" ∧
      (reuseOrCoin "AB1234" "f-id" = lowerStr "AB1234" ↔ isUuid "AB1234" = true) :=
  ⟨by decide, reuseOrCoin_spec.1 "AB1234" "f-id" (by decide)⟩

/-! ### Claim C7: date repair -/

/-- Counterexample to claim C7 as stated: "aa-bb-cccc" is neither in
    YYYY-MM-DD shape nor in DD-MM-YYYY / DD/MM/YYYY shape, yet date repair
    does not yield the absent (empty) birth date on it — the source only
    checks the part count and the length of the year part, not that the
    parts are digits, so it returns "cccc-bb-aa". -/
theorem ddmmyyyyToISO_counterexample :
    ddmmyyyyToISO "aa-bb-cccc" = "cccc-bb-aa" ∧
    isoShape ("aa-bb-cccc").data = false ∧
    ddmmClaimShape "aa-bb-cccc" = false ∧
    ("cccc-bb-aa" : String) ≠ "" := by
  refine ⟨by decide, by decide, by decide, by decide⟩

/-- `splitDate` equals the length-test reassembly rule of the amended claim. -/
lemma splitDate_eq (sep : Char) (l : List Char) :
    splitDate sep l = splitRule sep l := by
  unfold splitDate splitRule dateFromParts
  rcases hp : splitOnChar sep l with _ | ⟨a, _ | ⟨b, _ | ⟨c, _ | ⟨d, rest⟩⟩⟩⟩ <;>
    simp only []
  · simp
  · simp
  · simp
  · by_cases hc : c.length = 4
    · have hne : c ≠ [] := by
        intro h
        rw [h] at hc
        exact absurd hc (by decide)
      simp [hc, hne]
    · simp [hc]
  · simp [Nat.succ_ne_zero]

/-- Amended claim C7, proved: date repair returns a trimmed already-ISO
    string unchanged; otherwise it splits the trimmed input on "-" when
    present, else on "/", and when exactly three parts result with a
    4-character third part it reassembles them as third-second-first with
    zero padding and no digit validation; every other input yields the
    absent (empty) birth date.  The DD-MM-YYYY / DD/MM/YYYY cases of the
    original claim are instances of the reassembly rule. -/
theorem ddmmyyyyToISO_amended :
    (∀ v : String, ddmmyyyyToISO v = ddmmyyyyToISOAmended v) ∧
    ddmmyyyyToISO "1990-08-15" = "1990-08-15" ∧
    ddmmyyyyToISO "15-08-1990" = "1990-08-15" ∧
    ddmmyyyyToISO "15/08/1990" = "1990-08-15" ∧
    ddmmyyyyToISO "5/6/1990" = "1990-06-05" ∧
    ddmmyyyyToISO "hello" = "" ∧
    ddmmyyyyToISO "15/08-1990" = "" := by
  refine ⟨?_, by decide, by decide, by decide, by decide, by decide, by decide⟩
  intro v
  unfold ddmmyyyyToISO ddmmyyyyToISOAmended
  simp only [splitDate_eq]

/-! ### Claim C8: alternate-address extraction -/

/-- The raw record of the C8 counterexample: a list-shaped nested
    alternate-address field containing the string items "x" and "". -/
def abhaRecordCE : JVal :=
  .jobj [("additional_attributes", .jobj [("abha_addresses", .jarr [.jstr "x", .jstr ""])])]

/-- Counterexample to claim C8 as stated: on a list-shaped field holding the
    string items "x" and "", taking string items as-is and deduplicating
    would give ["x", ""], but the source's `.filter(Boolean)` drops the
    empty string, so extraction returns ["x"]. -/
theorem extractAbhaAddresses_counterexample :
    extractAbhaAddresses abhaRecordCE = ["x"] ∧
    extractAbhaAddressesClaim abhaRecordCE = ["x", ""] ∧
    (["x"] : List String) ≠ ["x", ""] := by
  refine ⟨by decide, by decide, by decide⟩

/-- Fusion of the source's map / filter-falsy pipeline into one filterMap. -/
lemma filter_filterMap_chain {α : Type} (f : α → Option String) (g : α → Option String)
    (H : ∀ a, (f a).bind dropEmptyStr = g a) (l : List α) :
    (l.filterMap f).filter (fun s => decide (s ≠ "")) = l.filterMap g := by
  induction l with
  | nil => rfl
  | cons a t ih =>
    have ha := H a
    rw [List.filterMap_cons, List.filterMap_cons]
    cases hfa : f a with
    | none =>
      rw [hfa] at ha
      simp only [Option.none_bind] at ha
      simp only [← ha]
      exact ih
    | some s =>
      rw [hfa] at ha
      simp only [Option.some_bind] at ha
      by_cases hs : s = ""
      · subst hs
        have hg : g a = none := by
          rw [← ha]
          decide
        simp only [hg, List.filter_cons]
        rw [if_neg (by decide)]
        exact ih
      · have hd : dropEmptyStr s = some s := by simp [dropEmptyStr, hs]
        rw [hd] at ha
        simp only [← ha, List.filter_cons]
        rw [if_pos (by simpa using hs)]
        rw [ih]

/-- The per-item rule of the source equals the amended per-item rule. -/
lemma abhaItem_amended_eq (it : JVal) :
    (abhaItem it).bind dropEmptyStr = abhaItemAmended it := by
  unfold abhaItem abhaItemAmended
  by_cases ht : truthy it = false
  · simp [ht]
  · simp only [ht, if_false]
    cases it with
    | jnull => simp [truthy] at ht
    | jbool b => simp
    | jnum n => simp
    | jstr s => simp [dropEmptyStr]
    | jarr items => simp
    | jobj fields =>
      cases hj : jget (.jobj fields) "address" with
      | none => simp [hj]
      | some a =>
        by_cases hta : truthy a = true
        · simp [hj, hta]
        · simp [hj, hta]

/-- Amended claim C8, proved: extraction over a list-shaped field equals the
    amended description (falsy and non-string non-object items dropped,
    non-empty strings as-is, objects via truthy `address` property or
    deterministic encoding with empty results dropped, deduplication in
    first-occurrence order), and the legacy fallback is used exactly when
    the nested field is absent or not list-shaped, yielding the legacy
    field's string form when truthy and the empty list otherwise. -/
theorem extractAbhaAddresses_amended (p : JVal) :
    extractAbhaAddresses p = extractAbhaAddressesAmended p := by
  unfold extractAbhaAddresses extractAbhaAddressesAmended
  cases hq : (jget p "additional_attributes").bind (fun a => jget a "abha_addresses") with
  | none => rfl
  | some v =>
    cases v with
    | jnull => rfl
    | jbool b => rfl
    | jnum n => rfl
    | jstr s => rfl
    | jobj fields => rfl
    | jarr raw =>
      simp only []
      rw [List.filterMap_map]
      have hcomp : (id ∘ abhaItem) = abhaItem := by
        funext a
        rfl
      rw [hcomp, filter_filterMap_chain abhaItem abhaItemAmended abhaItem_amended_eq raw]

/-! ### Claim C3: the person resource's identifier list -/

/-- Claim C3: the person resource's identifier list is never empty; one
    entry is emitted per present identity source — external health id
    (coded PI), selected external health address (coded PN), local record
    number (coded MR), each with a human-readable label — and when all
    three sources are absent, exactly one synthetic "generated-id"
    identifier keyed on the coined identity is emitted. -/
theorem buildFhirPatient_identifier_spec (f : Form) (fresh : String) :
    (buildFhirPatient f fresh).identifier ≠ [] ∧
    (f.abhaRef = "" ∧ f.selectedAbhaAddress = "" ∧ f.mrn = "" →
      (buildFhirPatient f fresh).identifier =
        [{ system := "urn:uuid", value := (buildFhirPatient f fresh).id
         , idType := { coding := [{ system := V2_0203, code := "PI"
                                  , display := some "Patient internal identifier" }]
                     , text := "generated-id" } }]) ∧
    (f.abhaRef ≠ "" →
      ({ system := "https://healthid.abdm.gov.in", value := f.abhaRef
       , idType := { coding := [{ system := V2_0203, code := "PI"
                                , display := some "Patient internal identifier" }]
                   , text := "ABHA Number" } } : Identifier) ∈
        (buildFhirPatient f fresh).identifier) ∧
    (f.selectedAbhaAddress ≠ "" →
      ({ system := "https://healthid.abdm.gov.in/address", value := f.selectedAbhaAddress
       , idType := { coding := [{ system := V2_0203, code := "PN"
                                , display := some "Person number" }]
                   , text := "ABHA Address" } } : Identifier) ∈
        (buildFhirPatient f fresh).identifier) ∧
    (f.mrn ≠ "" →
      ({ system := "http://hospital.example/mrn", value := f.mrn
       , idType := { coding := [{ system := V2_0203, code := "MR"
                                , display := some "Medical record number" }]
                   , text := "MRN" } } : Identifier) ∈
        (buildFhirPatient f fresh).identifier) ∧
    (buildFhirPatient f fresh).identifier.length =
      (if f.abhaRef ≠ "" then 1 else 0) + (if f.selectedAbhaAddress ≠ "" then 1 else 0) +
        (if f.mrn ≠ "" then 1 else 0) +
        (if f.abhaRef = "" ∧ f.selectedAbhaAddress = "" ∧ f.mrn = "" then 1 else 0) := by
  unfold buildFhirPatient patientIdentifiers
  by_cases h1 : f.abhaRef = "" <;> by_cases h2 : f.selectedAbhaAddress = "" <;>
    by_cases h3 : f.mrn = "" <;> simp [h1, h2, h3]

/-- Witness for C3: with all three sources absent the identifier list is
    exactly the synthetic generated-id entry keyed on the fresh identity. -/
theorem buildFhirPatient_identifier_spec_witness :
    (buildFhirPatient
      { resourceId := "", displayName := "P", gender := "", birthDate := ""
      , mobile := "", address := "", abhaRef := "", abhaAddresses := []
      , selectedAbhaAddress := "", mrn := "" } "f-id").identifier =
      [{ system := "urn:uuid"
       , value := (buildFhirPatient
          { resourceId := "", displayName := "P", gender := "", birthDate := ""
          , mobile := "", address := "", abhaRef := "", abhaAddresses := []
          , selectedAbhaAddress := "", mrn := "" } "f-id").id
       , idType := { coding := [{ system := V2_0203, code := "PI"
                                , display := some "Patient internal identifier" }]
                   , text := "generated-id" } }] :=
  (buildFhirPatient_identifier_spec
    { resourceId := "", displayName := "P", gender := "", birthDate := ""
    , mobile := "", address := "", abhaRef := "", abhaAddresses := []
    , selectedAbhaAddress := "", mrn := "" } "f-id").2.1 ⟨rfl, rfl, rfl⟩

/-! ### Claim C10: lifestyle rows -/

/-- `lvEmpty` holds exactly on the empty string, null and undefined. -/
lemma lvEmpty_iff (v : LValue) :
    lvEmpty v = true ↔ (v = .str "" ∨ v = .null ∨ v = .undef) := by
  cases v <;> simp [lvEmpty]

/-- Length of a filterMap over an enumeration, when keeping is a function of
    the element alone. -/
lemma length_filterMap_enumFrom {α β : Type} (f : Nat → α → Option β) (q : α → Bool)
    (H : ∀ n a, (f n a).isSome = q a) :
    ∀ (n : Nat) (l : List α),
      ((l.enumFrom n).filterMap (fun p => f p.1 p.2)).length = (l.filter q).length := by
  intro n l
  induction l generalizing n with
  | nil => rfl
  | cons a t ih =>
    rw [List.enumFrom_cons, List.filterMap_cons, List.filter_cons]
    have ha := H n a
    cases hf : f n a with
    | none =>
      rw [hf] at ha
      simp only [Option.isSome_none] at ha
      simp only [hf, ← ha, Bool.false_eq_true, if_false]
      exact ih (n + 1)
    | some b =>
      rw [hf] at ha
      simp only [Option.isSome_some] at ha
      simp only [hf, ← ha, if_true, List.length_cons]
      rw [ih (n + 1)]

/-- Claim C10: a lifestyle row is skipped exactly when its label is empty
    and its value is the empty string, null or undefined; every other row
    produces exactly one lifestyle observation, with an empty label
    defaulting to "Lifestyle", boolean values rendered as Yes/No, and empty
    non-boolean values rendered as "Not provided". -/
theorem lifestyle_rows_spec :
    (∀ (pid prid fid now : String) (r : LifestyleRow),
      (lifestyleRowObs pid prid fid now r = none ↔
        r.label = "" ∧ (r.value = .str "" ∨ r.value = .null ∨ r.value = .undef))) ∧
    (∀ (pid prid fid now : String) (r : LifestyleRow) (o : ObservationR),
      lifestyleRowObs pid prid fid now r = some o →
        o.code.text = some (if r.label = "" then "Lifestyle" else r.label) ∧
        o.metaProfile = [OBS_LIFESTYLE_PROFILE] ∧
        o.valueCodeableConcept = some { coding := [], text := some (lvRender r.value) } ∧
        o.id = fid) ∧
    (∀ b, lvRender (.bool b) = if b then "Yes" else "No") ∧
    lvRender (.str "") = "Not provided" ∧
    lvRender .null = "Not provided" ∧
    lvRender .undef = "Not provided" ∧
    (∀ s, s ≠ "" → lvRender (.str s) = s) ∧
    (∀ (pid prid : String) (sup : Nat → String) (now : String)
       (rows : List LifestyleRow),
      (lifestyleObservations pid prid sup now rows).length =
        (rows.filter (fun r => !(decide (r.label = "") && lvEmpty r.value))).length) := by
  refine ⟨?_, ?_, by intro b; rfl, rfl, rfl, rfl, ?_, ?_⟩
  · intro pid prid fid now r
    unfold lifestyleRowObs
    by_cases hc : r.label = "" ∧ lvEmpty r.value = true
    · rw [if_pos hc]
      simp only [true_iff]
      exact ⟨hc.1, (lvEmpty_iff r.value).mp hc.2⟩
    · rw [if_neg hc]
      constructor
      · intro h
        exact Option.noConfusion h
      · intro h
        exact absurd ⟨h.1, (lvEmpty_iff r.value).mpr h.2⟩ hc
  · intro pid prid fid now r o h
    unfold lifestyleRowObs at h
    split at h
    · exact Option.noConfusion h
    · have he := Option.some.inj h
      subst he
      refine ⟨?_, rfl, rfl, rfl⟩
      by_cases hl : r.label = ""
      · simp [buildLifestyleObs, hl]
      · simp [buildLifestyleObs, hl]
  · intro s hs
    simp [lvRender, hs]
  · intro pid prid sup now rows
    unfold lifestyleObservations List.enum
    refine length_filterMap_enumFrom
      (fun n a => lifestyleRowObs pid prid (sup (15 + n)) now a)
      (fun r => !(decide (r.label = "") && lvEmpty r.value)) ?_ 0 rows
    intro n a
    dsimp only
    unfold lifestyleRowObs
    by_cases hc : a.label = "" ∧ lvEmpty a.value = true
    · rw [if_pos hc]
      simp [hc.1, hc.2]
    · rw [if_neg hc]
      simp only [Option.isSome_some]
      rcases Decidable.not_and_iff_or_not.mp hc with h | h
      · simp [h]
      · simp [Bool.eq_false_iff.mpr h]

/-- Witness for C10 at concrete rows: the row with empty label and value
    false is kept and rendered Lifestyle / No; the empty-label empty-string
    row is skipped. -/
theorem lifestyle_rows_spec_witness :
    (lifestyleRowObs "p" "d" "i" "t" { label := "", value := .str "" } = none ↔
      ("" : String) = "" ∧
        ((.str "" : LValue) = .str "" ∨ (.str "" : LValue) = .null ∨
          (.str "" : LValue) = .undef)) ∧
    lvRender (.str "x") = "x" :=
  ⟨lifestyle_rows_spec.1 "p" "d" "i" "t" { label := "", value := .str "" },
   lifestyle_rows_spec.2.2.2.2.2.2.1 "x" (by decide)⟩

/-! ### Claim C5: precondition refusal -/

/-- When every precondition holds, generation succeeds with the core run. -/
lemma generateBundle_ok_eq (sup : Nat → String) (now : String) (ins : GenInputs)
    (f : Form) (hf : ins.form = some f)
    (hab : ¬(f.selectedAbhaAddress = "" ∧ f.abhaRef = ""))
    (hpr : ¬(ins.pract.name = "" ∨ ins.pract.license = "")) :
    generateBundle sup now ins = .ok (generateBundleCore sup now f ins) := by
  unfold generateBundle
  rw [hf]
  show (if f.selectedAbhaAddress = "" ∧ f.abhaRef = "" then _ else _) = _
  rw [if_neg hab, if_neg hpr]

/-- Claim C5: when a generation precondition fails — no person selected,
    neither external-health id nor address present, attester name or
    license empty — generation is refused with a specific message naming
    the missing field, no bundle is produced (the system stays Idle), and
    every refusal message is one of the three specific ones; when all
    preconditions hold the run produces the bundle. -/
theorem generateBundle_precondition_spec (sup : Nat → String) (now : String)
    (ins : GenInputs) :
    (ins.form = none → generateBundle sup now ins = .error "Please select a patient.") ∧
    (∀ f, ins.form = some f → f.selectedAbhaAddress = "" → f.abhaRef = "" →
      generateBundle sup now ins = .error "Please select ABHA address.") ∧
    (∀ f, ins.form = some f → ¬(f.selectedAbhaAddress = "" ∧ f.abhaRef = "") →
      (ins.pract.name = "" ∨ ins.pract.license = "") →
      generateBundle sup now ins = .error "Practitioner name and license required.") ∧
    (∀ f, ins.form = some f → ¬(f.selectedAbhaAddress = "" ∧ f.abhaRef = "") →
      ¬(ins.pract.name = "" ∨ ins.pract.license = "") →
      generateBundle sup now ins = .ok (generateBundleCore sup now f ins)) ∧
    (∀ msg, generateBundle sup now ins = .error msg →
      msg = "Please select a patient." ∨ msg = "Please select ABHA address." ∨
        msg = "Practitioner name and license required.") := by
  have p1 : ins.form = none →
      generateBundle sup now ins = .error "Please select a patient." := by
    intro h
    unfold generateBundle
    rw [h]
  have p2 : ∀ f, ins.form = some f → f.selectedAbhaAddress = "" → f.abhaRef = "" →
      generateBundle sup now ins = .error "Please select ABHA address." := by
    intro f hf h1 h2
    unfold generateBundle
    rw [hf]
    show (if f.selectedAbhaAddress = "" ∧ f.abhaRef = "" then _ else _) = _
    rw [if_pos (And.intro h1 h2)]
  have p3 : ∀ f, ins.form = some f → ¬(f.selectedAbhaAddress = "" ∧ f.abhaRef = "") →
      (ins.pract.name = "" ∨ ins.pract.license = "") →
      generateBundle sup now ins = .error "Practitioner name and license required." := by
    intro f hf hne hp
    unfold generateBundle
    rw [hf]
    show (if f.selectedAbhaAddress = "" ∧ f.abhaRef = "" then _ else _) = _
    rw [if_neg hne, if_pos hp]
  have p4 : ∀ f, ins.form = some f → ¬(f.selectedAbhaAddress = "" ∧ f.abhaRef = "") →
      ¬(ins.pract.name = "" ∨ ins.pract.license = "") →
      generateBundle sup now ins = .ok (generateBundleCore sup now f ins) :=
    fun f hf hne hp => generateBundle_ok_eq sup now ins f hf hne hp
  refine ⟨p1, p2, p3, p4, ?_⟩
  intro msg h
  cases hf : ins.form with
  | none =>
    rw [p1 hf] at h
    exact Or.inl (Except.error.inj h).symm
  | some f =>
    by_cases h1 : f.selectedAbhaAddress = "" ∧ f.abhaRef = ""
    · rw [p2 f hf h1.1 h1.2] at h
      exact Or.inr (Or.inl (Except.error.inj h).symm)
    · by_cases h2 : ins.pract.name = "" ∨ ins.pract.license = ""
      · rw [p3 f hf h1 h2] at h
        exact Or.inr (Or.inr (Except.error.inj h).symm)
      · rw [p4 f hf h1 h2] at h
        exact Except.noConfusion h

/-- The sample form of the precondition witness: a selected person with an
    external-health address chosen. -/
def sampleFormC5 : Form :=
  { resourceId := "", displayName := "P", gender := "", birthDate := ""
  , mobile := "", address := "", abhaRef := "", abhaAddresses := ["a@x"]
  , selectedAbhaAddress := "a@x", mrn := "" }

/-- The sample inputs of the precondition witness: attester with an empty
    license. -/
def sampleInsC5 : GenInputs :=
  { form := some sampleFormC5
  , pract := { loginId := "pract-001", name := "Dr. ABC", license := "" }
  , physicalText := "", generalNotes := "", generalPain := false
  , lifestyle := []
  , vitals := { hr := "", systolic := "", diastolic := "", temp := "", spo2 := "" }
  , body := { height := "", weight := "", bmi := "" } }

/-- Witness for C5: with a person selected and an external-health address
    present, an attester with an empty license is refused with the message
    naming the practitioner license. -/
theorem generateBundle_precondition_spec_witness :
    generateBundle (fun _ => "u") "T0" sampleInsC5 =
      .error "Practitioner name and license required." :=
  (generateBundle_precondition_spec (fun _ => "u") "T0" sampleInsC5).2.2.1
    sampleFormC5 rfl (by decide) (Or.inr rfl)

/-! ### Claim C4: vitals filtering -/

/-- Number of vital/body inputs carrying a present (non-empty) value. -/
def numPresentVitals (ins : GenInputs) : Nat :=
  (if ins.vitals.hr = "" then 0 else 1) + (if ins.vitals.systolic = "" then 0 else 1) +
  (if ins.vitals.diastolic = "" then 0 else 1) + (if ins.vitals.temp = "" then 0 else 1) +
  (if ins.vitals.spo2 = "" then 0 else 1) + (if ins.body.height = "" then 0 else 1) +
  (if ins.body.weight = "" then 0 else 1) + (if ins.body.bmi = "" then 0 else 1)

/-- The number of cross-references carried by the bundle's Vitals section
    (the first section of the first entry's composition). -/
def vitalsSectionRefCount (b : Bundle) : Nat :=
  match b.entry with
  | ⟨_, .composition c⟩ :: _ =>
    match c.sectionList with
    | s :: _ => (s.entry.getD []).length
    | [] => 0
  | _ => 0

/-- A vital chunk contributes one quantity-valued observation exactly when
    its value is non-empty. -/
lemma vitalChunk_qfilter (pid prid ct q u code fid now : String) :
    ((vitalChunk pid prid ct q u code fid now).filter
      (fun o => o.valueQuantity.isSome)).length = if q = "" then 0 else 1 := by
  unfold vitalChunk buildVitalObservation
  by_cases h : q = "" <;> simp [h]

/-- Lifestyle observations never carry a quantity value. -/
lemma lifestyleObservations_qfilter (pid prid : String) (sup : Nat → String)
    (now : String) (rows : List LifestyleRow) :
    (lifestyleObservations pid prid sup now rows).filter
      (fun o => o.valueQuantity.isSome) = [] := by
  rw [List.filter_eq_nil_iff]
  intro o ho
  unfold lifestyleObservations at ho
  rw [List.mem_filterMap] at ho
  obtain ⟨p, _, he⟩ := ho
  unfold lifestyleRowObs at he
  split at he
  · exact Option.noConfusion he
  · have hb := Option.some.inj he
    subst hb
    simp [buildLifestyleObs]

/-- The quantity-valued observations of a run are exactly the kept vitals. -/
lemma buildObservations_qfilter_length (pid prid : String) (sup : Nat → String)
    (now : String) (ins : GenInputs) :
    ((buildObservations pid prid sup now ins).filter
      (fun o => o.valueQuantity.isSome)).length = numPresentVitals ins := by
  unfold buildObservations numPresentVitals
  simp only [List.filter_append, List.length_append, vitalChunk_qfilter,
    lifestyleObservations_qfilter]
  simp [buildPhysicalActivityObs, buildGeneralAssessmentObs]

/-- Claim C4: a vital with an absent/empty numeric value produces no
    observation resource for any unit and code, and contributes no
    cross-reference to the Vitals section; a vital with a present value
    produces exactly one resource carrying a numeric-quantity value with
    the given unit.  The Vitals section of a successful run carries exactly
    one cross-reference per present vital input. -/
theorem vitals_filter_spec :
    (∀ pid prid ct unit code fid now : String,
      buildVitalObservation pid prid ct "" unit code fid now = none) ∧
    (∀ pid prid ct q unit code fid now : String, q ≠ "" →
      ∃ o, buildVitalObservation pid prid ct q unit code fid now = some o ∧
        o.valueQuantity = some { value := .ofString q, unit := unit
                               , system := "http://unitsofmeasure.org", code := unit } ∧
        o.id = fid) ∧
    (∀ (sup : Nat → String) (now : String) (ins : GenInputs) (f : Form),
      ins.form = some f →
      ¬(f.selectedAbhaAddress = "" ∧ f.abhaRef = "") →
      ¬(ins.pract.name = "" ∨ ins.pract.license = "") →
      ∀ b, generateBundle sup now ins = .ok b →
        vitalsSectionRefCount b = numPresentVitals ins) := by
  refine ⟨?_, ?_, ?_⟩
  · intro pid prid ct unit code fid now
    unfold buildVitalObservation
    rw [if_pos rfl]
  · intro pid prid ct q unit code fid now hq
    unfold buildVitalObservation
    rw [if_neg hq]
    exact ⟨_, rfl, rfl, rfl⟩
  · intro sup now ins f hf hab hpr b hb
    rw [generateBundle_ok_eq sup now ins f hf hab hpr] at hb
    have hbe := Except.ok.inj hb
    subst hbe
    have hcount : vitalsSectionRefCount (generateBundleCore sup now f ins) =
        ((coreObservations sup now f ins).filter
          (fun o => o.valueQuantity.isSome)).length := by
      unfold vitalsSectionRefCount generateBundleCore coreComposition coreSections
        mkSections
      by_cases hv : ((coreObservations sup now f ins).filter
          (fun o => o.valueQuantity.isSome)).map
          (fun o => ({ reference := urn o.id, display := none } : Reference)) = []
      · rw [if_pos hv]
        have hfe : (coreObservations sup now f ins).filter
            (fun o => o.valueQuantity.isSome) = [] :=
          List.map_eq_nil_iff.mp hv
        simp [hfe]
      · rw [if_neg hv]
        simp
    rw [hcount]
    exact buildObservations_qfilter_length _ _ sup now ins

/-- Witness for C4: a present heart rate of 72 beats/min produces one
    resource with that quantity, and with one present vital the Vitals
    section of the generated bundle carries exactly one cross-reference. -/
theorem vitals_filter_spec_witness :
    ∃ o, buildVitalObservation "p" "d" "Heart rate" "72" "beats/min" "8867-4" "i" "t" =
        some o ∧
      o.valueQuantity = some { value := .ofString "72", unit := "beats/min"
                             , system := "http://unitsofmeasure.org", code := "beats/min" } ∧
      o.id = "i" :=
  vitals_filter_spec.2.1 "p" "d" "Heart rate" "72" "beats/min" "8867-4" "i" "t" (by decide)

/-! ### Shared sample inputs for witnesses of the successful-run claims -/

/-- A form with every precondition satisfied. -/
def sampleForm : Form :=
  { resourceId := "", displayName := "Pat", gender := "male", birthDate := "1990-08-15"
  , mobile := "99", address := "Street 1", abhaRef := "AB1234"
  , abhaAddresses := ["pat@abdm"], selectedAbhaAddress := "pat@abdm", mrn := "77" }

/-- Generation inputs with one present vital and one lifestyle row. -/
def sampleIns : GenInputs :=
  { form := some sampleForm
  , pract := { loginId := "pract-001", name := "Dr. ABC", license := "LIC-1234" }
  , physicalText := "walks daily", generalNotes := "fine", generalPain := false
  , lifestyle := [{ label := "Smoking", value := .bool false }]
  , vitals := { hr := "72", systolic := "", diastolic := "", temp := "", spo2 := "" }
  , body := { height := "", weight := "", bmi := "" } }

/-- A witness identifier supply: pairwise distinct non-empty strings. -/
def wsup (n : Nat) : String := String.mk (List.replicate (n + 1) 'a')

/-! ### Claim C9: bundle entry ordering -/

/-- Claim C9: in every generated bundle the entry sequence is ordered
    exactly as document header (composition) first, then the person
    resource, then the attester resource, then the observation resources in
    their generation order. -/
theorem generateBundle_entry_order (sup : Nat → String) (now : String)
    (ins : GenInputs) (f : Form)
    (hf : ins.form = some f)
    (hab : ¬(f.selectedAbhaAddress = "" ∧ f.abhaRef = ""))
    (hpr : ¬(ins.pract.name = "" ∨ ins.pract.license = "")) :
    ∃ b, generateBundle sup now ins = .ok b ∧
      b.entry.map (fun e => e.resource) =
        .composition (coreComposition sup now f ins) ::
          .patient (corePatient sup f) ::
          .practitioner (corePract sup ins) ::
          (coreObservations sup now f ins).map .observation := by
  refine ⟨generateBundleCore sup now f ins,
    generateBundle_ok_eq sup now ins f hf hab hpr, ?_⟩
  unfold generateBundleCore
  simp only [List.map_cons, List.map_map]
  rfl

/-- Witness for C9 at the sample inputs. -/
theorem generateBundle_entry_order_witness :
    ∃ b, generateBundle wsup "T0" sampleIns = .ok b ∧
      b.entry.map (fun e => e.resource) =
        .composition (coreComposition wsup "T0" sampleForm sampleIns) ::
          .patient (corePatient wsup sampleForm) ::
          .practitioner (corePract wsup sampleIns) ::
          (coreObservations wsup "T0" sampleForm sampleIns).map .observation :=
  generateBundle_entry_order wsup "T0" sampleIns sampleForm rfl (by decide) (by decide)

/-! ### Claim C2: section shapes -/

/-- Claim C2: each of the four sections (Vitals, Physical Activity, General
    Assessment, Lifestyle) carries either a non-empty cross-reference list
    (and, for the non-Vitals sections, also a narrative placeholder) or a
    narrative fallback stating nothing was recorded; no section carries an
    empty cross-reference list, and no section lacks both entries and a
    narrative. -/
theorem generateBundle_sections_spec (sup : Nat → String) (now : String)
    (ins : GenInputs) (f : Form)
    (hf : ins.form = some f)
    (hab : ¬(f.selectedAbhaAddress = "" ∧ f.abhaRef = ""))
    (hpr : ¬(ins.pract.name = "" ∨ ins.pract.license = "")) :
    ∃ b c rest, generateBundle sup now ins = .ok b ∧
      b.entry = { fullUrl := urn c.id, resource := .composition c } :: rest ∧
      c.sectionList.map (fun s => s.title) =
        ["Vitals", "Physical Activity", "General Assessment", "Lifestyle"] ∧
      ∀ s ∈ c.sectionList,
        s.entry ≠ some [] ∧
        ((∃ rs, s.entry = some rs ∧ rs ≠ []) ∨
          (s.entry = none ∧
            (s.text = some (genNarr "No vitals recorded") ∨
             s.text = some (genNarr "No lifestyle observations recorded")))) ∧
        (s.title ≠ "Vitals" → s.text.isSome = true) := by
  refine ⟨generateBundleCore sup now f ins, coreComposition sup now f ins, _,
    generateBundle_ok_eq sup now ins f hf hab hpr, rfl, ?_, ?_⟩
  · show (coreSections sup now f ins).map (fun s => s.title) = _
    unfold coreSections mkSections
    by_cases hv : ((coreObservations sup now f ins).filter
        (fun o => o.valueQuantity.isSome)).map
        (fun o => ({ reference := urn o.id, display := none } : Reference)) = []
    · rw [if_pos hv]
      by_cases hl : ((coreObservations sup now f ins).filter
          (fun o => o.metaProfile.contains OBS_LIFESTYLE_PROFILE)).map
          (fun o => ({ reference := urn o.id, display := none } : Reference)) = []
      · rw [if_pos hl]
        rfl
      · rw [if_neg hl]
        rfl
    · rw [if_neg hv]
      by_cases hl : ((coreObservations sup now f ins).filter
          (fun o => o.metaProfile.contains OBS_LIFESTYLE_PROFILE)).map
          (fun o => ({ reference := urn o.id, display := none } : Reference)) = []
      · rw [if_pos hl]
        rfl
      · rw [if_neg hl]
        rfl
  · intro s hs
    have hs2 : s ∈ coreSections sup now f ins := hs
    unfold coreSections mkSections at hs2
    by_cases hv : ((coreObservations sup now f ins).filter
        (fun o => o.valueQuantity.isSome)).map
        (fun o => ({ reference := urn o.id, display := none } : Reference)) = [] <;>
      by_cases hl : ((coreObservations sup now f ins).filter
          (fun o => o.metaProfile.contains OBS_LIFESTYLE_PROFILE)).map
          (fun o => ({ reference := urn o.id, display := none } : Reference)) = [] <;>
      [rw [if_pos hv, if_pos hl] at hs2; rw [if_pos hv, if_neg hl] at hs2;
       rw [if_neg hv, if_pos hl] at hs2; rw [if_neg hv, if_neg hl] at hs2] <;>
      simp only [List.mem_append, List.mem_singleton] at hs2 <;>
      rcases hs2 with ((rfl | rfl) | rfl) | rfl <;>
      refine ⟨?_, ?_, ?_⟩ <;>
      simp_all

/-- Witness for C2 at the sample inputs. -/
theorem generateBundle_sections_spec_witness :
    ∃ b c rest, generateBundle wsup "T0" sampleIns = .ok b ∧
      b.entry = { fullUrl := urn c.id, resource := .composition c } :: rest ∧
      c.sectionList.map (fun s => s.title) =
        ["Vitals", "Physical Activity", "General Assessment", "Lifestyle"] ∧
      ∀ s ∈ c.sectionList,
        s.entry ≠ some [] ∧
        ((∃ rs, s.entry = some rs ∧ rs ≠ []) ∨
          (s.entry = none ∧
            (s.text = some (genNarr "No vitals recorded") ∨
             s.text = some (genNarr "No lifestyle observations recorded")))) ∧
        (s.title ≠ "Vitals" → s.text.isSome = true) :=
  generateBundle_sections_spec wsup "T0" sampleIns sampleForm rfl (by decide) (by decide)

/-! ### Claim C1: unique resolution of every cross-reference -/

/-- `urn:uuid:` references are injective in the coined identity. -/
lemma urn_inj {a b : String} (h : urn a = urn b) : a = b := by
  unfold urn at h
  have hd : ("urn:uuid:" ++ a).data = ("urn:uuid:" ++ b).data := by rw [h]
  rw [String.data_append, String.data_append] at hd
  exact String.ext (List.append_cancel_left hd)

/-- Mapping the kept elements of a filterMap lands in the map of the whole
    list, as a sublist, whenever the two functions agree on kept elements. -/
lemma filterMap_map_id_sublist {α β γ : Type} (f : α → Option β) (h : β → γ)
    (k : α → γ) (H : ∀ a b, f a = some b → h b = k a) :
    ∀ l : List α, ((l.filterMap f).map h).Sublist (l.map k) := by
  intro l
  induction l with
  | nil => simp
  | cons a t ih =>
    rw [List.filterMap_cons, List.map_cons]
    cases hfa : f a with
    | none => exact ih.cons (k a)
    | some b =>
      rw [List.map_cons, H a b hfa]
      exact ih.cons₂ (k a)

/-- The identities of one vital chunk form a sublist of its one slot. -/
lemma vitalChunk_ids_sublist (pid prid ct q u code fid now : String) :
    ((vitalChunk pid prid ct q u code fid now).map (fun o => o.id)).Sublist [fid] := by
  unfold vitalChunk buildVitalObservation
  by_cases h : q = ""
  · simp [h]
  · simp only [h, if_neg, Option.toList_some, List.map_cons, List.map_nil]
    exact List.Sublist.refl _

/-- The identities of the lifestyle observations form a sublist of the
    lifestyle slots. -/
lemma lifestyleObservations_ids_sublist (pid prid : String) (sup : Nat → String)
    (now : String) (rows : List LifestyleRow) :
    ((lifestyleObservations pid prid sup now rows).map (fun o => o.id)).Sublist
      ((List.range rows.length).map (fun i => sup (15 + i))) := by
  unfold lifestyleObservations
  have H : ∀ (p : Nat × LifestyleRow) (o : ObservationR),
      lifestyleRowObs pid prid (sup (15 + p.1)) now p.2 = some o →
        o.id = sup (15 + p.1) := by
    intro p o h
    unfold lifestyleRowObs at h
    split at h
    · exact Option.noConfusion h
    · have hb := Option.some.inj h
      subst hb
      rfl
  have hsub := filterMap_map_id_sublist
    (fun p => lifestyleRowObs pid prid (sup (15 + p.1)) now p.2)
    (fun o => o.id) (fun p => sup (15 + p.1)) (fun p o h => H p o h) rows.enum
  have he : rows.enum.map (fun p => sup (15 + p.1)) =
      (List.range rows.length).map (fun i => sup (15 + i)) := by
    have h1 : (fun p : Nat × LifestyleRow => sup (15 + p.1)) =
        (fun i => sup (15 + i)) ∘ Prod.fst := rfl
    rw [h1, ← List.map_map, List.enum_map_fst]
  rwa [he] at hsub

/-- The identities of a run's observations form a sublist of the vital,
    physical-activity, general-assessment and lifestyle slots, in order. -/
lemma buildObservations_ids_sublist (pid prid : String) (sup : Nat → String)
    (now : String) (ins : GenInputs) :
    ((buildObservations pid prid sup now ins).map (fun o => o.id)).Sublist
      ([sup 5] ++ [sup 6] ++ [sup 7] ++ [sup 8] ++ [sup 9] ++ [sup 10] ++
        [sup 11] ++ [sup 12] ++ [sup 13] ++ [sup 14] ++
        (List.range ins.lifestyle.length).map (fun i => sup (15 + i))) := by
  unfold buildObservations
  simp only [List.map_append]
  refine List.Sublist.append ?_ (lifestyleObservations_ids_sublist pid prid sup now ins.lifestyle)
  refine List.Sublist.append ?_ (List.Sublist.refl _)
  refine List.Sublist.append ?_ (List.Sublist.refl _)
  refine List.Sublist.append ?_ (vitalChunk_ids_sublist _ _ _ _ _ _ _ _)
  refine List.Sublist.append ?_ (vitalChunk_ids_sublist _ _ _ _ _ _ _ _)
  refine List.Sublist.append ?_ (vitalChunk_ids_sublist _ _ _ _ _ _ _ _)
  refine List.Sublist.append ?_ (vitalChunk_ids_sublist _ _ _ _ _ _ _ _)
  refine List.Sublist.append ?_ (vitalChunk_ids_sublist _ _ _ _ _ _ _ _)
  refine List.Sublist.append ?_ (vitalChunk_ids_sublist _ _ _ _ _ _ _ _)
  refine List.Sublist.append ?_ (vitalChunk_ids_sublist _ _ _ _ _ _ _ _)
  exact vitalChunk_ids_sublist _ _ _ _ _ _ _ _

/-- The bundle identities of one run, in entry order: composition slot,
    patient identity, practitioner slot, observation identities. -/
lemma coreIds_eq (sup : Nat → String) (now : String) (f : Form) (ins : GenInputs) :
    bundleIds (generateBundleCore sup now f ins) =
      sup 2 :: (corePatient sup f).id :: sup 1 ::
        (coreObservations sup now f ins).map (fun o => o.id) := by
  unfold bundleIds generateBundleCore
  simp only [List.map_cons, List.map_map]
  rfl

/-- Freshness of the supply away from the patient identity: every slot
    other than 0 differs from the coined patient id. -/
lemma corePatient_id_fresh (sup : Nat → String) (f : Form) (L : Nat)
    (hinj : ∀ i, i < 15 + L → ∀ j, j < 15 + L → sup i = sup j → i = j)
    (hseed : ∀ i, i < 15 + L → sup i ≠ lowerStr f.resourceId) :
    ∀ i, i < 15 + L → 1 ≤ i → sup i ≠ (corePatient sup f).id := by
  intro i hi h1 he
  have hpe : (corePatient sup f).id = reuseOrCoin f.resourceId (sup 0) := rfl
  rw [hpe] at he
  unfold reuseOrCoin at he
  by_cases hc : f.resourceId ≠ "" ∧ isUuid f.resourceId
  · rw [if_pos hc] at he
    exact hseed i hi he
  · rw [if_neg hc] at he
    have := hinj i hi 0 (by omega) he
    omega

/-- No two resources of one run share a coined identity, given a supply
    that is injective on the run's slots and avoids the reusable seed. -/
lemma coreIds_nodup (sup : Nat → String) (now : String) (f : Form) (ins : GenInputs)
    (hinj : ∀ i, i < 15 + ins.lifestyle.length →
      ∀ j, j < 15 + ins.lifestyle.length → sup i = sup j → i = j)
    (hseed : ∀ i, i < 15 + ins.lifestyle.length → sup i ≠ lowerStr f.resourceId) :
    (bundleIds (generateBundleCore sup now f ins)).Nodup := by
  have hpid := corePatient_id_fresh sup f ins.lifestyle.length hinj hseed
  rw [coreIds_eq]
  have hobs := buildObservations_ids_sublist (corePatient sup f).id
    (corePract sup ins).id sup now ins
  have hsub : (sup 2 :: (corePatient sup f).id :: sup 1 ::
      (coreObservations sup now f ins).map (fun o => o.id)).Sublist
      (sup 2 :: (corePatient sup f).id :: sup 1 ::
        ([sup 5] ++ [sup 6] ++ [sup 7] ++ [sup 8] ++ [sup 9] ++ [sup 10] ++
          [sup 11] ++ [sup 12] ++ [sup 13] ++ [sup 14] ++
          (List.range ins.lifestyle.length).map (fun i => sup (15 + i)))) :=
    ((hobs.cons₂ (sup 1)).cons₂ (corePatient sup f).id).cons₂ (sup 2)
  refine List.Nodup.sublist hsub ?_
  have htarget : ([sup 5] ++ [sup 6] ++ [sup 7] ++ [sup 8] ++ [sup 9] ++ [sup 10] ++
      [sup 11] ++ [sup 12] ++ [sup 13] ++ [sup 14] ++
      (List.range ins.lifestyle.length).map (fun i => sup (15 + i))) =
      (([5, 6, 7, 8, 9, 10, 11, 12, 13, 14] : List Nat) ++
        (List.range ins.lifestyle.length).map (fun i => 15 + i)).map sup := by
    simp [List.map_map]
  rw [htarget]
  set slots : List Nat := ([5, 6, 7, 8, 9, 10, 11, 12, 13, 14] : List Nat) ++
    (List.range ins.lifestyle.length).map (fun i => 15 + i) with hslots
  have hslotmem : ∀ s ∈ slots, 5 ≤ s ∧ s < 15 + ins.lifestyle.length := by
    intro s hs
    rw [hslots] at hs
    rcases List.mem_append.mp hs with h | h
    · simp only [List.mem_cons, List.not_mem_nil, or_false] at h
      rcases h with rfl | rfl | rfl | rfl | rfl | rfl | rfl | rfl | rfl | rfl <;> omega
    · obtain ⟨i, hi, rfl⟩ := List.mem_map.mp h
      rw [List.mem_range] at hi
      omega
  have hslotsnd : slots.Nodup := by
    rw [hslots]
    refine List.Nodup.append (by decide) ?_ ?_
    · exact List.Nodup.map (fun a b h => by omega) (List.nodup_range _)
    · intro a ha hb
      obtain ⟨i, _, hia⟩ := List.mem_map.mp hb
      simp only [List.mem_cons, List.not_mem_nil, or_false] at ha
      rcases ha with rfl | rfl | rfl | rfl | rfl | rfl | rfl | rfl | rfl | rfl <;> omega
  have htail : (slots.map sup).Nodup :=
    List.Nodup.map_on
      (fun x hx y hy hxy => hinj x (hslotmem x hx).2 y (hslotmem y hy).2 hxy)
      hslotsnd
  refine List.nodup_cons.mpr ⟨?_, List.nodup_cons.mpr ⟨?_, List.nodup_cons.mpr ⟨?_, htail⟩⟩⟩
  · intro hmem
    rcases List.mem_cons.mp hmem with h | hmem2
    · exact hpid 2 (by omega) (by omega) h
    rcases List.mem_cons.mp hmem2 with h | hmem3
    · have := hinj 2 (by omega) 1 (by omega) h
      omega
    · obtain ⟨s, hs, he⟩ := List.mem_map.mp hmem3
      have hb := hslotmem s hs
      have := hinj 2 (by omega) s hb.2 he.symm
      omega
  · intro hmem
    rcases List.mem_cons.mp hmem with h | hmem2
    · exact hpid 1 (by omega) (by omega) h.symm
    · obtain ⟨s, hs, he⟩ := List.mem_map.mp hmem2
      exact hpid s (hslotmem s hs).2 (by have := (hslotmem s hs).1; omega) he
  · intro hmem
    obtain ⟨s, hs, he⟩ := List.mem_map.mp hmem
    have hb := hslotmem s hs
    have := hinj 1 (by omega) s hb.2 he.symm
    omega

/-- Every kept vital observation points at the run's patient and attester
    and carries its chunk's coined identity. -/
lemma vitalChunk_mem {pid prid ct q u code fid now : String} {o : ObservationR}
    (h : o ∈ vitalChunk pid prid ct q u code fid now) :
    o.subject = { reference := urn pid, display := none } ∧
    o.performer = [{ reference := urn prid, display := none }] := by
  unfold vitalChunk at h
  rw [Option.mem_toList, Option.mem_def] at h
  unfold buildVitalObservation at h
  split at h
  · exact Option.noConfusion h
  · have hx := Option.some.inj h
    subst hx
    exact ⟨rfl, rfl⟩

/-- Every lifestyle observation points at the run's patient and attester. -/
lemma lifestyleObservations_mem {pid prid : String} {sup : Nat → String}
    {now : String} {rows : List LifestyleRow} {o : ObservationR}
    (h : o ∈ lifestyleObservations pid prid sup now rows) :
    o.subject = { reference := urn pid, display := none } ∧
    o.performer = [{ reference := urn prid, display := none }] := by
  unfold lifestyleObservations at h
  rw [List.mem_filterMap] at h
  obtain ⟨p, _, he⟩ := h
  unfold lifestyleRowObs at he
  split at he
  · exact Option.noConfusion he
  · have hb := Option.some.inj he
    subst hb
    exact ⟨rfl, rfl⟩

/-- Every observation of one run points at the run's patient and attester. -/
lemma buildObservations_mem {pid prid : String} {sup : Nat → String}
    {now : String} {ins : GenInputs} {o : ObservationR}
    (h : o ∈ buildObservations pid prid sup now ins) :
    o.subject = { reference := urn pid, display := none } ∧
    o.performer = [{ reference := urn prid, display := none }] := by
  unfold buildObservations at h
  simp only [List.mem_append] at h
  rcases h with (((((((((h | h) | h) | h) | h) | h) | h) | h) | h) | h) | h
  case _ => exact vitalChunk_mem h
  case _ => exact vitalChunk_mem h
  case _ => exact vitalChunk_mem h
  case _ => exact vitalChunk_mem h
  case _ => exact vitalChunk_mem h
  case _ => exact vitalChunk_mem h
  case _ => exact vitalChunk_mem h
  case _ => exact vitalChunk_mem h
  case _ =>
    rw [List.mem_singleton] at h
    subst h
    exact ⟨rfl, rfl⟩
  case _ =>
    rw [List.mem_singleton] at h
    subst h
    exact ⟨rfl, rfl⟩
  case _ => exact lifestyleObservations_mem h

/-- Every cross-reference of the assembled sections is the reference of the
    physical-activity observation, the general-assessment observation, or
    one of the listed observations. -/
lemma mkSections_refs (obs : List ObservationR) (physId genId : String) :
    ∀ r ∈ ((mkSections obs physId genId).map sectionRefs).flatten,
      r = urn physId ∨ r = urn genId ∨ ∃ o ∈ obs, r = urn o.id := by
  intro r hr
  unfold mkSections at hr
  have hvit : ∀ hr2 : r ∈ sectionRefs
      { title := "Vitals"
      , entry := some ((obs.filter (fun o => o.valueQuantity.isSome)).map
          (fun o => ({ reference := urn o.id, display := none } : Reference)))
      , text := none },
      ∃ o ∈ obs, r = urn o.id := by
    intro hr2
    have hr3 : r ∈ ((obs.filter (fun o => o.valueQuantity.isSome)).map
        (fun o => ({ reference := urn o.id, display := none } : Reference))).map
        (fun rf => rf.reference) := hr2
    rw [List.map_map] at hr3
    obtain ⟨o, ho, rfl⟩ := List.mem_map.mp hr3
    exact ⟨o, (List.mem_filter.mp ho).1, rfl⟩
  have hls : ∀ hr2 : r ∈ sectionRefs
      { title := "Lifestyle"
      , entry := some ((obs.filter
          (fun o => o.metaProfile.contains OBS_LIFESTYLE_PROFILE)).map
          (fun o => ({ reference := urn o.id, display := none } : Reference)))
      , text := some (genNarr "Lifestyle") },
      ∃ o ∈ obs, r = urn o.id := by
    intro hr2
    have hr3 : r ∈ ((obs.filter
        (fun o => o.metaProfile.contains OBS_LIFESTYLE_PROFILE)).map
        (fun o => ({ reference := urn o.id, display := none } : Reference))).map
        (fun rf => rf.reference) := hr2
    rw [List.map_map] at hr3
    obtain ⟨o, ho, rfl⟩ := List.mem_map.mp hr3
    exact ⟨o, (List.mem_filter.mp ho).1, rfl⟩
  by_cases hv : (obs.filter (fun o => o.valueQuantity.isSome)).map
      (fun o => ({ reference := urn o.id, display := none } : Reference)) = [] <;>
    by_cases hl : (obs.filter (fun o => o.metaProfile.contains OBS_LIFESTYLE_PROFILE)).map
      (fun o => ({ reference := urn o.id, display := none } : Reference)) = [] <;>
    [rw [if_pos hv, if_pos hl] at hr; rw [if_pos hv, if_neg hl] at hr;
     rw [if_neg hv, if_pos hl] at hr; rw [if_neg hv, if_neg hl] at hr] <;>
    simp only [List.map_append, List.map_cons, List.map_nil, List.flatten_append,
      List.flatten_cons, List.flatten_nil, List.append_nil, List.mem_append] at hr
  · rcases hr with ((hr | hr) | hr) | hr
    · exact absurd hr (by simp [sectionRefs])
    · exact Or.inl (by simpa [sectionRefs] using hr)
    · exact Or.inr (Or.inl (by simpa [sectionRefs] using hr))
    · exact absurd hr (by simp [sectionRefs])
  · rcases hr with ((hr | hr) | hr) | hr
    · exact absurd hr (by simp [sectionRefs])
    · exact Or.inl (by simpa [sectionRefs] using hr)
    · exact Or.inr (Or.inl (by simpa [sectionRefs] using hr))
    · exact Or.inr (Or.inr (hls hr))
  · rcases hr with ((hr | hr) | hr) | hr
    · exact Or.inr (Or.inr (hvit hr))
    · exact Or.inl (by simpa [sectionRefs] using hr)
    · exact Or.inr (Or.inl (by simpa [sectionRefs] using hr))
    · exact absurd hr (by simp [sectionRefs])
  · rcases hr with ((hr | hr) | hr) | hr
    · exact Or.inr (Or.inr (hvit hr))
    · exact Or.inl (by simpa [sectionRefs] using hr)
    · exact Or.inr (Or.inl (by simpa [sectionRefs] using hr))
    · exact Or.inr (Or.inr (hls hr))

/-- The physical-activity observation is among the run's observations. -/
lemma phys_mem_buildObservations (pid prid : String) (sup : Nat → String)
    (now : String) (ins : GenInputs) :
    buildPhysicalActivityObs pid prid (orNotProvided ins.physicalText) (sup 13) now ∈
      buildObservations pid prid sup now ins := by
  unfold buildObservations
  simp [List.mem_append]

/-- The general-assessment observation is among the run's observations. -/
lemma gen_mem_buildObservations (pid prid : String) (sup : Nat → String)
    (now : String) (ins : GenInputs) :
    buildGeneralAssessmentObs pid prid (orNotProvided ins.generalNotes)
        ins.generalPain (sup 14) now ∈
      buildObservations pid prid sup now ins := by
  unfold buildObservations
  simp [List.mem_append]

/-- Every cross-reference embedded in one run's bundle is the urn of the
    coined identity of one of its entries. -/
lemma generateBundleCore_refs_covered (sup : Nat → String) (now : String)
    (f : Form) (ins : GenInputs) :
    ∀ r ∈ bundleRefs (generateBundleCore sup now f ins),
      ∃ e ∈ (generateBundleCore sup now f ins).entry,
        urn (Resource.rid e.resource) = r := by
  intro r hr
  have hEp : ({ fullUrl := urn (corePatient sup f).id
              , resource := .patient (corePatient sup f) } : BundleEntry) ∈
      (generateBundleCore sup now f ins).entry := by
    unfold generateBundleCore
    simp
  have hEpr : ({ fullUrl := urn (corePract sup ins).id
               , resource := .practitioner (corePract sup ins) } : BundleEntry) ∈
      (generateBundleCore sup now f ins).entry := by
    unfold generateBundleCore
    simp
  have hEo : ∀ o ∈ coreObservations sup now f ins,
      ({ fullUrl := urn o.id, resource := .observation o } : BundleEntry) ∈
        (generateBundleCore sup now f ins).entry := by
    intro o ho
    unfold generateBundleCore
    simp only [List.mem_cons, List.mem_map]
    exact Or.inr (Or.inr (Or.inr ⟨o, ho, rfl⟩))
  unfold bundleRefs generateBundleCore at hr
  simp only [List.map_cons, List.flatten_cons, List.mem_append, List.map_map] at hr
  rcases hr with hr | hr | hr | hr
  · -- references of the composition
    unfold resourceRefs compRefs coreComposition at hr
    simp only [List.map_cons, List.map_nil, List.mem_cons, List.mem_append,
      List.not_mem_nil, or_false] at hr
    have hsec : r ∈ (((coreSections sup now f ins).map sectionRefs).flatten) →
        ∃ e ∈ (generateBundleCore sup now f ins).entry,
          urn (Resource.rid e.resource) = r := by
      intro hr2
      have := mkSections_refs (coreObservations sup now f ins) (sup 13) (sup 14) r hr2
      rcases this with rfl | rfl | ⟨o, ho, rfl⟩
      · exact ⟨_, hEo _ (phys_mem_buildObservations (corePatient sup f).id
          (corePract sup ins).id sup now ins), rfl⟩
      · exact ⟨_, hEo _ (gen_mem_buildObservations (corePatient sup f).id
          (corePract sup ins).id sup now ins), rfl⟩
      · exact ⟨_, hEo o ho, rfl⟩
    rcases hr with rfl | ((rfl | rfl) | hr)
    · exact ⟨_, hEp, rfl⟩
    · exact ⟨_, hEpr, rfl⟩
    · exact ⟨_, hEpr, rfl⟩
    · exact hsec hr
  · exact absurd hr (by simp [resourceRefs])
  · exact absurd hr (by simp [resourceRefs])
  · -- references of the observations
    rw [List.mem_flatten] at hr
    obtain ⟨l, hl, hrl⟩ := hr
    obtain ⟨o, ho, rfl⟩ := List.mem_map.mp hl
    have hop : o.subject = { reference := urn (corePatient sup f).id, display := none } ∧
        o.performer = [{ reference := urn (corePract sup ins).id, display := none }] :=
      buildObservations_mem ho
    simp only [Function.comp] at hrl
    have hrl2 : r ∈ o.subject.reference ::
        o.performer.map (fun rf => rf.reference) := hrl
    rw [hop.1, hop.2] at hrl2
    simp only [List.map_cons, List.map_nil, List.mem_cons, List.not_mem_nil,
      or_false] at hrl2
    rcases hrl2 with rfl | rfl
    · exact ⟨_, hEp, rfl⟩
    · exact ⟨_, hEpr, rfl⟩

/-- Claim C1: over inputs satisfying the preconditions, and with a fresh
    identifier supply (injective on the run's slots and avoiding the
    reusable seed), every cross-reference embedded anywhere in the output
    bundle — composition subject, author and attester party, section
    entries, observation subjects and performers — resolves by coined
    identity to exactly one resource present in the same bundle's entry
    list, and no two resources of the run share a coined identity. -/
theorem generateBundle_unique_resolution (sup : Nat → String) (now : String)
    (ins : GenInputs) (f : Form)
    (hf : ins.form = some f)
    (hab : ¬(f.selectedAbhaAddress = "" ∧ f.abhaRef = ""))
    (hpr : ¬(ins.pract.name = "" ∨ ins.pract.license = ""))
    (hinj : ∀ i, i < 15 + ins.lifestyle.length →
      ∀ j, j < 15 + ins.lifestyle.length → sup i = sup j → i = j)
    (hseed : ∀ i, i < 15 + ins.lifestyle.length → sup i ≠ lowerStr f.resourceId) :
    ∃ b, generateBundle sup now ins = .ok b ∧
      (bundleIds b).Nodup ∧
      ∀ r ∈ bundleRefs b, ∃! e, e ∈ b.entry ∧ urn (Resource.rid e.resource) = r := by
  have hnd := coreIds_nodup sup now f ins hinj hseed
  refine ⟨generateBundleCore sup now f ins,
    generateBundle_ok_eq sup now ins f hf hab hpr, hnd, ?_⟩
  intro r hr
  obtain ⟨e, he, heq⟩ := generateBundleCore_refs_covered sup now f ins r hr
  refine ⟨e, ⟨he, heq⟩, ?_⟩
  rintro e2 ⟨he2, heq2⟩
  have hrid : Resource.rid e2.resource = Resource.rid e.resource :=
    urn_inj (heq2.trans heq.symm)
  exact List.inj_on_of_nodup_map hnd he2 he hrid

/-- Witness for C1 at the sample inputs, with the supply of pairwise
    distinct non-empty identifiers. -/
theorem generateBundle_unique_resolution_witness :
    ∃ b, generateBundle wsup "T0" sampleIns = .ok b ∧
      (bundleIds b).Nodup ∧
      ∀ r ∈ bundleRefs b, ∃! e, e ∈ b.entry ∧ urn (Resource.rid e.resource) = r :=
  generateBundle_unique_resolution wsup "T0" sampleIns sampleForm rfl
    (by decide) (by decide) (by decide) (by decide)

end Wellness
